import Mathlib

/-!
Verification of the GitHub alerter pipeline
(`src/alerter/src/alerter/alerters/github.py`, class `GithubAlerter`).

The Python module is shallowly embedded below:

* `JsonV` models the values produced by `json.loads` (numeric leaves are
  modelled as integers; the monitored counters are integers).
* `classify` models the classification `try`-block of
  `GithubAlerter._process_data` (lines 68-99): given the decoded payload it
  either returns the ordered list of built alert payloads
  (`data_for_alerting`) or the exception that the block raises.  Python
  exceptions (`KeyError` on a missing dict key, `TypeError` on indexing a
  non-dict or subtracting non-numbers, `ValueError` from `int(...)`, and the
  explicitly raised `ReceivedUnexpectedDataException`) become the error side
  of an `Except`.
* `putOne` / `placeLatestDataOnQueue` model `Queue` overflow handling inside
  `GithubAlerter._place_latest_data_on_queue` (lines 127-140); a
  `queue.Queue` with `maxsize` is modelled as a `List` with its front at the
  head, `full()` as `0 < maxsize ∧ maxsize ≤ length`, `get()` as dropping
  the head and `put` as appending.
* `sendData` models the drain step `Alerter._send_data` (the base class is
  not part of the sources; it is modelled from the spec, see its docstring).
* `processData` / `processTrace` model one complete run of
  `GithubAlerter._process_data` for one inbound message.
* `consumeDispatch` / `classifierLoop` model the `while True` consumption
  loop of `GithubAlerter._alert_classifier_process` (lines 142-165).
* `prefetchCount` models the prefetch computation of
  `GithubAlerter._initialize_alerter` (line 44).
-/

/-- Values produced by `json.loads` on an inbound message body.  Objects are
association lists (JSON object keys are unique after decoding, later
duplicates having overwritten earlier ones).  Numeric leaves are modelled as
integers: the monitored `no_of_releases` counters are integers. -/
inductive JsonV where
  | null
  | bool (b : Bool)
  | int (n : ℤ)
  | str (s : String)
  | arr (elems : List JsonV)
  | obj (fields : List (String × JsonV))
deriving Repr

/-- The exceptions the classification block of `_process_data` can raise.
`unexpectedData` is `ReceivedUnexpectedDataException` (line 98); the others
are the Python built-ins raised by dict indexing, subtraction and `int()`. -/
inductive ClassifyError where
  | keyError
  | typeError
  | valueError
  | unexpectedData
deriving Repr, DecidableEq

/-- The kind of a built alert: which alert class was instantiated. -/
inductive AlertKind where
  | newGitHubRelease
  | cannotAccessGitHubPage
deriving Repr, DecidableEq

/-- Modelled from the spec: the alert classes `NewGitHubReleaseAlert` and
`CannotAccessGitHubPageAlert` live in `src/alerter/alerts/github_alerts.py`,
which is not among the sources.  The spec's `AlertEvent` is
`{severity, message-specific fields, timestamp, parent id, entity id}`; this
structure records the constructor arguments of lines 76-82 and 88-92 in that
shape (`origin` is the repo name, `fields` the message-specific extras). -/
structure AlertData where
  kind : AlertKind
  origin : JsonV
  fields : List JsonV
  severity : String
  timestamp : JsonV
  parentId : JsonV
  entityId : JsonV
deriving Repr

/-- `NewGitHubReleaseAlert(repo_name, release_name, tag_name, 'INFO',
last_monitored, repo_parent_id, repo_id).alert_data` (lines 76-82). -/
def newGitHubReleaseAlert (repoName releaseName tagName lastMonitored
    parentId repoId : JsonV) : AlertData :=
  { kind := .newGitHubRelease
    origin := repoName
    fields := [releaseName, tagName]
    severity := "INFO"
    timestamp := lastMonitored
    parentId := parentId
    entityId := repoId }

/-- `CannotAccessGitHubPageAlert(repo_name, 'ERROR', time, repo_parent_id,
repo_id).alert_data` (lines 88-92). -/
def cannotAccessGitHubPageAlert (repoName time parentId repoId : JsonV) :
    AlertData :=
  { kind := .cannotAccessGitHubPage
    origin := repoName
    fields := []
    severity := "ERROR"
    timestamp := time
    parentId := parentId
    entityId := repoId }

namespace JsonV

/-- Whether a decoded object's field list carries key `k`
(Python `k in d` for a dict). -/
def hasKeyF (fields : List (String × JsonV)) (k : String) : Bool :=
  (fields.lookup k).isSome

/-- Python subscription `v[k]` for a string key: field lookup on a dict
(`KeyError` when absent), `TypeError` on any non-dict value. -/
def getE (v : JsonV) (k : String) : Except ClassifyError JsonV :=
  match v with
  | .obj fields =>
    match fields.lookup k with
    | some x => .ok x
    | none => .error .keyError
  | _ => .error .typeError

/-- The numeric value of a Python object that is an `int` (Python `bool` is
an `int` subtype, so `True`/`False` count as `1`/`0`). -/
def asNum : JsonV → Option ℤ
  | .int n => some n
  | .bool b => some (if b then 1 else 0)
  | _ => none

/-- Python `int(v)`: identity on integers, `1`/`0` on booleans, decimal
parsing on strings (`ValueError` when the string is not numeric),
`TypeError` otherwise. -/
def pyInt (v : JsonV) : Except ClassifyError ℤ :=
  match v with
  | .int n => .ok n
  | .bool b => .ok (if b then 1 else 0)
  | .str s =>
    match s.toInt? with
    | some n => .ok n
    | none => .error .valueError
  | _ => .error .typeError

/-- Python `a - b` on decoded values: defined when both are numbers
(`int`/`bool`), `TypeError` otherwise.  This is the raw subtraction
`current - previous` of line 75, which unlike the guard of line 74 applies
no `int()` coercion. -/
def pySub (a b : JsonV) : Except ClassifyError ℤ :=
  match a.asNum, b.asNum with
  | some x, some y => .ok (x - y)
  | _, _ => .error .typeError

end JsonV

open JsonV

/-- One iteration body of the `for i in range(0, current - previous)` loop
(lines 75-83): build `NewGitHubReleaseAlert(meta['repo_name'],
data['releases'][str(i)]['release_name'], data['releases'][str(i)]['tag_name'],
'INFO', meta['last_monitored'], meta['repo_parent_id'], meta['repo_id'])`,
with each subscription able to fail. -/
def buildReleaseAlert (meta data : JsonV) (i : ℕ) :
    Except ClassifyError AlertData := do
  let repoName ← meta.getE "repo_name"
  let rel₁ ← data.getE "releases"
  let item₁ ← rel₁.getE (toString i)
  let releaseName ← item₁.getE "release_name"
  let rel₂ ← data.getE "releases"
  let item₂ ← rel₂.getE (toString i)
  let tagName ← item₂.getE "tag_name"
  let lastMonitored ← meta.getE "last_monitored"
  let parentId ← meta.getE "repo_parent_id"
  let repoId ← meta.getE "repo_id"
  pure (newGitHubReleaseAlert repoName releaseName tagName lastMonitored
    parentId repoId)

/-- The release loop itself, iterating `i, i+1, ...` for `fuel` iterations
and collecting the built alerts in iteration order; the first failing
iteration aborts the whole classification (the partially built
`data_for_alerting` list is then discarded by the error flag, so it is not
observable). -/
def classifyReleasesLoop (meta data : JsonV) (i : ℕ) :
    ℕ → Except ClassifyError (List AlertData)
  | 0 => pure []
  | fuel + 1 => do
    let a ← buildReleaseAlert meta data i
    let rest ← classifyReleasesLoop meta data (i + 1) fuel
    pure (a :: rest)

/-- The `'result' in data_received` branch (lines 69-85).  Lines 70-73 fetch
`meta_data`, `data` and the `no_of_releases` counters; the guard of line 74
is `previous is not None and int(current) > int(previous)` (short-circuit:
with `previous` null nothing else is evaluated); line 75 then iterates
`range(0, current - previous)`. -/
def classifyResult (d : JsonV) : Except ClassifyError (List AlertData) := do
  let res ← d.getE "result"
  let meta ← res.getE "meta_data"
  let data ← res.getE "data"
  let nor ← data.getE "no_of_releases"
  let current ← nor.getE "current"
  let previous ← nor.getE "previous"
  match previous with
  | .null => pure []
  | _ => do
    let c ← pyInt current
    let p ← pyInt previous
    if p < c then do
      let delta ← pySub current previous
      classifyReleasesLoop meta data 0 delta.toNat
    else
      pure []

/-- The `'error' in data_received` branch (lines 86-96): build exactly one
`CannotAccessGitHubPageAlert` from the failure metadata. -/
def classifyFailure (d : JsonV) : Except ClassifyError (List AlertData) := do
  let err ← d.getE "error"
  let md ← err.getE "meta_data"
  let repoName ← md.getE "repo_name"
  let time ← md.getE "time"
  let parentId ← md.getE "repo_parent_id"
  let repoId ← md.getE "repo_id"
  pure [cannotAccessGitHubPageAlert repoName time parentId repoId]

/-- The whole classification `try`-block of `_process_data` (lines 68-99):
dispatch on the top-level keys, `ReceivedUnexpectedDataException` when the
payload has neither `result` nor `error`.  A non-dict top level fails with a
caught Python error as well (modelled as `typeError`); every claim below is
about decoded objects. -/
def classify : JsonV → Except ClassifyError (List AlertData)
  | .obj fields =>
    if hasKeyF fields "result" then classifyResult (.obj fields)
    else if hasKeyF fields "error" then classifyFailure (.obj fields)
    else .error .unexpectedData
  | _ => .error .typeError

/-- Modelled from the spec: `ALERT_EXCHANGE` is defined in
`src/utils/constants.py`, which is not among the sources; it is the name of
the durable topic exchange all alerts are published to. -/
def ALERT_EXCHANGE : String := "alert"

/-- One entry of the publishing queue as built on lines 135-138:
`{'exchange': ALERT_EXCHANGE, 'routing_key': 'alert_router.github',
'data': copy.deepcopy(alert)}` (the deep copy is value semantics, which Lean
data has natively). -/
structure RelayEntry where
  exchange : String
  routing_key : String
  data : AlertData
deriving Repr

/-- The publishing-queue entry for one classified alert. -/
def mkEntry (alert : AlertData) : RelayEntry :=
  { exchange := ALERT_EXCHANGE
    routing_key := "alert_router.github"
    data := alert }

/-- `queue.Queue.full()`: true when the queue has a positive `maxsize` and
holds at least `maxsize` items (Python `maxsize <= 0` means unbounded). -/
def pyQueueFull (maxsize : ℕ) (q : List α) : Bool :=
  decide (0 < maxsize) && decide (maxsize ≤ q.length)

/-- One iteration of `_place_latest_data_on_queue`'s loop body
(lines 133-138): if the queue is full, `get()` discards the oldest entry;
then `put` appends the new one.  Total and non-blocking. -/
def putOne (maxsize : ℕ) (q : List α) (e : α) : List α :=
  (if pyQueueFull maxsize q then q.tail else q) ++ [e]

/-- `GithubAlerter._place_latest_data_on_queue(data_list)` (lines 127-140):
insert every classified alert, in order, wrapped as a `RelayEntry`. -/
def placeLatestDataOnQueue (maxsize : ℕ) (q : List RelayEntry)
    (data_list : List AlertData) : List RelayEntry :=
  data_list.foldl (fun acc alert => putOne maxsize acc (mkEntry alert)) q

/-- Outcome of one confirmed publish attempt for one queue entry. -/
inductive PublishOutcome where
  | delivered
  | notDelivered
  | fatalError
deriving Repr, DecidableEq

/-- An exception escaping the drain step:
`MessageWasNotDeliveredException` or any other (fatal) error. -/
inductive DrainError where
  | notDelivered
  | fatal
deriving Repr, DecidableEq

/-- Modelled from the spec: `Alerter._send_data` is defined in the base
class `src/alerter/alerters/alerter.py`, which is not among the sources.
Per the spec's BrokerPublisher contract, `drain` peeks the front entry,
attempts a delivery-confirmed publish, pops it on confirmation and
continues, and on a `NotDelivered` condition stops, leaving the entry at the
front, raising `MessageWasNotDeliveredException`; any other publish error is
also raised with the entry still queued.  `attempt` is the broker's response
to each entry. -/
def sendData (attempt : RelayEntry → PublishOutcome) :
    List RelayEntry → List RelayEntry × Option DrainError
  | [] => ([], none)
  | e :: rest =>
    match attempt e with
    | .delivered => sendData attempt rest
    | .notDelivered => (e :: rest, some .notDelivered)
    | .fatalError => (e :: rest, some .fatal)

/-- The publishing-queue contents after the classification attempt and the
conditional `_place_latest_data_on_queue` call (lines 66-112): on success
all alerts are placed; on any classification error `processing_error` is set
and the queue is left untouched. -/
def queueAfterClassification (maxsize : ℕ) (q : List RelayEntry) (d : JsonV) :
    List RelayEntry :=
  match classify d with
  | .ok alerts => placeLatestDataOnQueue maxsize q alerts
  | .error _ => q

/-- The observable outcome of one `_process_data` call: the final
publishing-queue contents, whether `basic_ack` ran, and which drain
exception (if any) propagates out of the handler. -/
structure ProcResult where
  queue : List RelayEntry
  acked : Bool
  raised : Option DrainError
deriving Repr

/-- One complete `_process_data` run on a decoded payload `d` with the
publishing queue initially `q` (lines 57-125): classify inside `try`,
`basic_ack` unconditionally (line 105), place the alerts only when no
processing error occurred (lines 111-112), then `_send_data`;
`MessageWasNotDeliveredException` from the drain is caught and only logged
(lines 117-120), any other drain exception is re-raised (lines 121-125). -/
def processData (attempt : RelayEntry → PublishOutcome) (maxsize : ℕ)
    (q : List RelayEntry) (d : JsonV) : ProcResult :=
  let q₁ := queueAfterClassification maxsize q d
  let drained := sendData attempt q₁
  { queue := drained.1
    acked := true
    raised :=
      match drained.2 with
      | some .notDelivered => none
      | r => r }

/-- The externally visible actions of one `_process_data` call, in program
order. -/
inductive PipeAction where
  | classifyAttempt
  | ack
  | place (e : RelayEntry)
  | drainCall
deriving Repr

/-- The action sequence of one `_process_data` call: the classification
attempt (lines 68-103), then `basic_ack` (line 105), then — only on
classification success — one enqueue per built alert in order
(lines 111-112), then the `_send_data` drain call (line 116). -/
def processTrace (d : JsonV) : List PipeAction :=
  PipeAction.classifyAttempt :: PipeAction.ack ::
    ((match classify d with
      | .ok alerts => alerts.map (fun a => PipeAction.place (mkEntry a))
      | .error _ => []) ++ [PipeAction.drainCall])

/-- The ways one `start_consuming` round of `_alert_classifier_process`
can end (lines 145-165): `pika.exceptions.AMQPChannelError`,
`pika.exceptions.AMQPConnectionError`, `MessageWasNotDeliveredException`,
or any other exception. -/
inductive ConsumeOutcome where
  | channelError
  | connectionError
  | notDelivered
  | otherError
deriving Repr, DecidableEq

/-- What one `except` clause of the consumption loop does with its
exception: whether the loop continues with another round, whether the
handler itself logs (the channel/connection errors are logged by the
RabbitMQ logger, not here), and which exception propagates out of
`_alert_classifier_process`. -/
structure DispatchResult where
  continues : Bool
  logged : Bool
  propagated : Option ConsumeOutcome
deriving Repr, DecidableEq

/-- The `except` dispatch of `_alert_classifier_process` (lines 148-165):
`AMQPChannelError` → `continue`; `AMQPConnectionError` → `raise e`;
`MessageWasNotDeliveredException` → log, `continue`; anything else → log,
`raise e`.  No branch sleeps, so a continuing branch re-enters
`start_consuming` immediately. -/
def consumeDispatch : ConsumeOutcome → DispatchResult
  | .channelError => ⟨true, false, none⟩
  | .connectionError => ⟨false, false, some .connectionError⟩
  | .notDelivered => ⟨true, true, none⟩
  | .otherError => ⟨false, true, some .otherError⟩

/-- The `while True` consumption loop run against a finite stream of
round outcomes: returns how many rounds ran and which exception (if any)
terminated the loop by propagating.  An exhausted stream means the loop is
still running. -/
def classifierLoop : List ConsumeOutcome → ℕ × Option ConsumeOutcome
  | [] => (0, none)
  | o :: rest =>
    if (consumeDispatch o).continues then
      let r := classifierLoop rest
      (r.1 + 1, r.2)
    else
      (1, (consumeDispatch o).propagated)

/-- Line 44 of `_initialize_alerter`:
`prefetch_count = round(self.publishing_queue.maxsize / 5)`.  Python's
`round` returns the nearest integer (`maxsize / 5` is float division; for an
integer `maxsize` the quotient's fractional part is one of .0, .2, .4, .6,
.8, so the round-half-to-even tie rule never fires and the result is the
plain nearest integer: remainder ≤ 2 rounds down, ≥ 3 rounds up). -/
def prefetchCount (maxsize : ℕ) : ℕ :=
  maxsize / 5 + (if maxsize % 5 ≤ 2 then 0 else 1)

/-! ## General lemmas about the embedded monadic code and the queue -/

theorem ok_bind {ε α β : Type} (a : α) (f : α → Except ε β) :
    (Except.ok a : Except ε α) >>= f = f a := rfl

theorem error_bind {ε α β : Type} (e : ε) (f : α → Except ε β) :
    (Except.error e : Except ε α) >>= f = .error e := rfl

theorem pure_eq_ok {ε α : Type} (a : α) : (pure a : Except ε α) = .ok a := rfl

theorem except_bind_ok {ε α β : Type} {x : Except ε α} {f : α → Except ε β}
    {b : β} (h : x >>= f = .ok b) : ∃ a, x = .ok a ∧ f a = .ok b := by
  cases x with
  | ok a => exact ⟨a, rfl, h⟩
  | error e => simp [error_bind] at h

theorem classifyReleasesLoop_ok (meta data : JsonV) (A : ℕ → AlertData) :
    ∀ (fuel i : ℕ),
      (∀ j, j < fuel → buildReleaseAlert meta data (i + j) = .ok (A (i + j))) →
      classifyReleasesLoop meta data i fuel
        = .ok ((List.range fuel).map fun k => A (i + k)) := by
  intro fuel
  induction fuel with
  | zero => intro i _; simp [classifyReleasesLoop, pure_eq_ok]
  | succ n ih =>
    intro i h
    have h0 : buildReleaseAlert meta data i = .ok (A i) := by
      simpa using h 0 (Nat.succ_pos n)
    have hrest : classifyReleasesLoop meta data (i + 1) n
        = .ok ((List.range n).map fun k => A (i + 1 + k)) := by
      apply ih
      intro j hj
      have hja := h (j + 1) (by omega)
      have harg : i + (j + 1) = i + 1 + j := by omega
      rwa [harg] at hja
    simp only [classifyReleasesLoop, h0, hrest, ok_bind, pure_eq_ok]
    congr 1
    rw [List.range_succ_eq_map]
    simp only [List.map_cons, List.map_map, Nat.add_zero]
    congr 1
    apply List.map_congr_left
    intro a _
    simp only [Function.comp]
    congr 1
    omega

theorem buildReleaseAlert_kind {meta data : JsonV} {i : ℕ} {a : AlertData}
    (h : buildReleaseAlert meta data i = .ok a) :
    a.kind = .newGitHubRelease := by
  unfold buildReleaseAlert at h
  repeat obtain ⟨_, _, h⟩ := except_bind_ok h
  rw [pure_eq_ok] at h
  injection h with h
  subst h
  rfl

theorem classifyReleasesLoop_kinds (meta data : JsonV) :
    ∀ (fuel i : ℕ) (l : List AlertData),
      classifyReleasesLoop meta data i fuel = .ok l →
      ∀ a ∈ l, a.kind = .newGitHubRelease := by
  intro fuel
  induction fuel with
  | zero =>
    intro i l h a ha
    rw [show classifyReleasesLoop meta data i 0 = .ok [] from rfl] at h
    injection h with h
    subst h
    cases ha
  | succ n ih =>
    intro i l h a ha
    unfold classifyReleasesLoop at h
    obtain ⟨a₀, h₀, h⟩ := except_bind_ok h
    obtain ⟨rest, hrest, h⟩ := except_bind_ok h
    rw [pure_eq_ok] at h
    injection h with h
    subst h
    cases ha with
    | head => exact buildReleaseAlert_kind h₀
    | tail _ hmem => exact ih (i + 1) rest hrest a hmem

theorem classifyResult_kinds {d : JsonV} {l : List AlertData}
    (h : classifyResult d = .ok l) :
    ∀ a ∈ l, a.kind = .newGitHubRelease := by
  unfold classifyResult at h
  obtain ⟨res, _, h⟩ := except_bind_ok h
  obtain ⟨meta, _, h⟩ := except_bind_ok h
  obtain ⟨data, _, h⟩ := except_bind_ok h
  obtain ⟨nor, _, h⟩ := except_bind_ok h
  obtain ⟨current, _, h⟩ := except_bind_ok h
  obtain ⟨previous, _, h⟩ := except_bind_ok h
  cases previous <;>
    first
      | (rw [pure_eq_ok] at h
         injection h with h
         subst h
         intro a ha
         cases ha)
      | (obtain ⟨c, _, h⟩ := except_bind_ok h
         obtain ⟨p, _, h⟩ := except_bind_ok h
         split at h
         · obtain ⟨delta, _, h⟩ := except_bind_ok h
           exact classifyReleasesLoop_kinds meta data _ 0 l h
         · rw [pure_eq_ok] at h
           injection h with h
           subst h
           intro a ha
           cases ha)

theorem putOne_of_lt {α : Type} {N : ℕ} {q : List α} (e : α)
    (h : q.length < N) : putOne N q e = q ++ [e] := by
  have hf : pyQueueFull N q = false := by
    simp only [pyQueueFull, Bool.and_eq_false_iff, decide_eq_false_iff_not, not_le, not_lt]
    omega
  simp [putOne, hf]

theorem putOne_of_full {α : Type} {N : ℕ} {q : List α} (e : α)
    (h1 : 0 < N) (h2 : N ≤ q.length) : putOne N q e = q.tail ++ [e] := by
  have hf : pyQueueFull N q = true := by
    simp only [pyQueueFull, Bool.and_eq_true, decide_eq_true_eq]
    omega
  simp [putOne, hf]

theorem foldl_putOne_append {α : Type} (N : ℕ) :
    ∀ (es q : List α), q.length + es.length ≤ N →
      es.foldl (putOne N) q = q ++ es := by
  intro es
  induction es with
  | nil => intro q _; simp
  | cons e es ih =>
    intro q h
    simp only [List.foldl_cons]
    rw [putOne_of_lt e (by simp at h; omega)]
    rw [ih (q ++ [e]) (by simp at h ⊢; omega)]
    simp

/-! ## Concrete example payloads used by the witnesses -/

/-- The success payload of the spec's end-to-end example:
`current = 3`, `previous = 1`, releases `"0"` and `"1"`. -/
def exMeta : JsonV :=
  .obj [("repo_name", .str "x"), ("last_monitored", .int 100),
        ("repo_parent_id", .str "p"), ("repo_id", .str "r")]

/-- One release object with the two fields the classifier reads. -/
def exRelease (name tag : String) : JsonV :=
  .obj [("release_name", .str name), ("tag_name", .str tag)]

/-- Success payload: two new releases (indices `"0"` and `"1"`). -/
def exSuccess : JsonV :=
  .obj [("result", .obj [("meta_data", exMeta),
    ("data", .obj [
      ("no_of_releases", .obj [("current", .int 3), ("previous", .int 1)]),
      ("releases", .obj [("0", exRelease "a" "v1"), ("1", exRelease "b" "v2")])])])]

/-- The alerts the classifier builds from `exSuccess`, by release index. -/
def exAlertFn : ℕ → AlertData
  | 0 => newGitHubReleaseAlert (.str "x") (.str "a") (.str "v1") (.int 100)
      (.str "p") (.str "r")
  | _ => newGitHubReleaseAlert (.str "x") (.str "b") (.str "v2") (.int 100)
      (.str "p") (.str "r")

/-- A success payload violating the positional contract: `delta = 3` but the
releases map only resolves indices `"0"` and `"1"`, so index `"2"` raises
`KeyError` after two alerts were already built. -/
def exOutOfRange : JsonV :=
  .obj [("result", .obj [("meta_data", exMeta),
    ("data", .obj [
      ("no_of_releases", .obj [("current", .int 3), ("previous", .int 0)]),
      ("releases", .obj [("0", exRelease "a" "v1"), ("1", exRelease "b" "v2")])])])]

/-- The fields of a well-formed failure payload. -/
def exFailureFields : List (String × JsonV) :=
  [("error", .obj [("meta_data", .obj [("repo_name", .str "x"),
    ("time", .int 5), ("repo_parent_id", .str "p"), ("repo_id", .str "r")])])]

/-- A well-formed failure payload. -/
def exFailure : JsonV := .obj exFailureFields

/-- The single alert classified from `exFailure`. -/
def exFailAlert : AlertData :=
  cannotAccessGitHubPageAlert (.str "x") (.int 5) (.str "p") (.str "r")

/-- A queue entry used to exercise the buffer, distinguished by `n`. -/
def exEntry (n : ℤ) : RelayEntry :=
  mkEntry (cannotAccessGitHubPageAlert (.str "x") (.int n) (.str "p") (.str "r"))

/-! ## C1 -/

/-- C1: for a decoded object with a `result` key whose `no_of_releases`
counters resolve, classification emits exactly `current − previous` events
when `previous` is a non-null integer and `current > previous`, the events
being built in index order from the releases map at string indices
`"0" .. str(delta-1)` (that is what `buildReleaseAlert meta data i` reads);
and it emits zero events when `previous` is null or `current ≤ previous`. -/
theorem classify_success_event_count
    (fields : List (String × JsonV)) (res meta data nor current previous : JsonV)
    (hkey : hasKeyF fields "result" = true)
    (hres : (JsonV.obj fields).getE "result" = .ok res)
    (hmeta : res.getE "meta_data" = .ok meta)
    (hdata : res.getE "data" = .ok data)
    (hnor : data.getE "no_of_releases" = .ok nor)
    (hcur : nor.getE "current" = .ok current)
    (hprev : nor.getE "previous" = .ok previous) :
    (previous = .null → classify (.obj fields) = .ok [])
    ∧ (∀ c p : ℤ, current = .int c → previous = .int p → c ≤ p →
        classify (.obj fields) = .ok [])
    ∧ (∀ c p : ℤ, current = .int c → previous = .int p → p < c →
        ∀ A : ℕ → AlertData,
          (∀ i, i < (c - p).toNat → buildReleaseAlert meta data i = .ok (A i)) →
          classify (.obj fields) = .ok ((List.range (c - p).toNat).map A)) := by
  have hcl : classify (.obj fields) = classifyResult (.obj fields) := by
    simp [classify, hkey]
  refine ⟨?_, ?_, ?_⟩
  · intro hnull
    subst hnull
    rw [hcl]
    simp [classifyResult, hres, hmeta, hdata, hnor, hcur, hprev, ok_bind,
      pure_eq_ok]
  · intro c p hc hp hle
    subst hc
    subst hp
    rw [hcl]
    simp only [classifyResult, hres, hmeta, hdata, hnor, hcur, hprev, ok_bind,
      JsonV.pyInt]
    rw [if_neg (by omega)]
    rfl
  · intro c p hc hp hlt A hA
    subst hc
    subst hp
    rw [hcl]
    have hloop : classifyReleasesLoop meta data 0 (c - p).toNat
        = .ok ((List.range (c - p).toNat).map A) := by
      have hl := classifyReleasesLoop_ok meta data A (c - p).toNat 0
        (by intro j hj; simpa using hA j hj)
      simpa using hl
    simp only [classifyResult, hres, hmeta, hdata, hnor, hcur, hprev, ok_bind,
      JsonV.pyInt, JsonV.pySub, JsonV.asNum]
    rw [if_pos hlt]
    simp [ok_bind, hloop]

/-- C1 witness: the spec's end-to-end example yields exactly the two alerts
for indices 0 and 1, not three. -/
theorem classify_success_event_count_witness :
    classify exSuccess = .ok
      [newGitHubReleaseAlert (.str "x") (.str "a") (.str "v1") (.int 100)
         (.str "p") (.str "r"),
       newGitHubReleaseAlert (.str "x") (.str "b") (.str "v2") (.int 100)
         (.str "p") (.str "r")] := by
  have h := (classify_success_event_count
      [("result", .obj [("meta_data", exMeta),
        ("data", .obj [
          ("no_of_releases", .obj [("current", .int 3), ("previous", .int 1)]),
          ("releases", .obj [("0", exRelease "a" "v1"),
                             ("1", exRelease "b" "v2")])])])]
      _ _ _ _ _ _ rfl rfl rfl rfl rfl rfl rfl).2.2 3 1 rfl rfl (by norm_num)
      exAlertFn (by intro i hi; norm_num at hi; interval_cases i <;> rfl)
  exact h

/-! ## C2 -/

/-- C2: for every inbound message the action trace of `_process_data` is the
classification attempt, then the upstream `basic_ack`, and only after it any
enqueue of a resulting entry or the publish/drain step. -/
theorem ack_after_classify_before_enqueue (d : JsonV) :
    ∃ rest, processTrace d
        = PipeAction.classifyAttempt :: PipeAction.ack :: rest
      ∧ ∀ a ∈ rest, (∃ e, a = PipeAction.place e) ∨ a = PipeAction.drainCall := by
  cases hc : classify d with
  | ok alerts =>
    refine ⟨alerts.map (fun a => PipeAction.place (mkEntry a))
        ++ [PipeAction.drainCall], ?_, ?_⟩
    · unfold processTrace
      rw [hc]
    · intro a ha
      rcases List.mem_append.mp ha with h | h
      · obtain ⟨x, _, rfl⟩ := List.mem_map.mp h
        exact Or.inl ⟨_, rfl⟩
      · simp only [List.mem_singleton] at h
        exact Or.inr h
  | error e =>
    refine ⟨[PipeAction.drainCall], ?_, ?_⟩
    · unfold processTrace
      rw [hc]
      rfl
    · intro a ha
      simp only [List.mem_singleton] at ha
      exact Or.inr ha

/-- C2 witness: instantiation at a concrete failure payload. -/
theorem ack_after_classify_before_enqueue_witness :
    ∃ rest, processTrace exFailure
        = PipeAction.classifyAttempt :: PipeAction.ack :: rest
      ∧ ∀ a ∈ rest, (∃ e, a = PipeAction.place e) ∨ a = PipeAction.drainCall :=
  ack_after_classify_before_enqueue exFailure

/-! ## C3 -/

/-- C3: classification is all-or-nothing with respect to the publishing
queue: when classifying a message raises any error, the queue right after
the (skipped) placing step is exactly the queue from before the message,
and the whole `_process_data` run leaves the queue as a pure drain of the
pre-existing entries. -/
theorem classify_error_places_nothing
    (maxsize : ℕ) (q : List RelayEntry) (d : JsonV) (e : ClassifyError)
    (h : classify d = .error e) :
    queueAfterClassification maxsize q d = q
    ∧ ∀ attempt, (processData attempt maxsize q d).queue
        = (sendData attempt q).1 := by
  have hq : queueAfterClassification maxsize q d = q := by
    simp [queueAfterClassification, h]
  exact ⟨hq, fun attempt => by simp [processData, hq]⟩

/-- C3 witness: a payload whose third release index is out of range fails
with `KeyError` after two alerts were already built, and the queue stays
empty. -/
theorem classify_error_places_nothing_witness :
    classify exOutOfRange = .error .keyError
    ∧ queueAfterClassification 5 [] exOutOfRange = [] :=
  ⟨rfl, (classify_error_places_nothing 5 [] exOutOfRange .keyError rfl).1⟩

/-! ## C4 -/

/-- C4: `putOne` (the body of `_place_latest_data_on_queue`) is total and
non-blocking; at capacity it evicts exactly the single oldest entry before
appending, inserting `N+1` entries into an initially empty capacity-`N`
queue leaves exactly the last `N` entries in original relative order (the
first-inserted entry is the one dropped), and the length never exceeds
`N`. -/
theorem relay_buffer_drop_oldest (N : ℕ) (hN : 0 < N) :
    (∀ es : List RelayEntry, es.length = N + 1 →
      es.foldl (putOne N) [] = es.tail)
    ∧ (∀ (q : List RelayEntry) (e : RelayEntry), q.length = N →
        putOne N q e = q.tail ++ [e])
    ∧ (∀ (q : List RelayEntry) (e : RelayEntry), q.length ≤ N →
        (putOne N q e).length ≤ N) := by
  refine ⟨?_, ?_, ?_⟩
  · intro es hlen
    rcases List.eq_nil_or_concat es with rfl | ⟨as, a, rfl⟩
    · simp at hlen
    · have ha : as.length = N := by
        simp only [List.concat_eq_append, List.length_append,
          List.length_singleton] at hlen
        omega
      rw [List.concat_eq_append, List.foldl_append]
      rw [foldl_putOne_append N as [] (by simp [ha])]
      simp only [List.nil_append, List.foldl_cons, List.foldl_nil]
      rw [putOne_of_full a hN (by omega)]
      cases as with
      | nil => simp at ha; omega
      | cons x xs => simp
  · intro q e hq
    exact putOne_of_full e hN (by omega)
  · intro q e hq
    rcases lt_or_eq_of_le hq with hlt | heq
    · rw [putOne_of_lt e hlt]
      simp only [List.length_append, List.length_singleton]
      omega
    · rw [putOne_of_full e hN (by omega)]
      simp only [List.length_append, List.length_singleton, List.length_tail]
      omega

/-- C4 witness: three entries into an empty capacity-2 queue leave the last
two, oldest-first order preserved. -/
theorem relay_buffer_drop_oldest_witness :
    (0 : ℕ) < 2
    ∧ [exEntry 1, exEntry 2, exEntry 3].foldl (putOne 2) []
        = [exEntry 2, exEntry 3] :=
  ⟨by norm_num,
    (relay_buffer_drop_oldest 2 (by norm_num)).1
      [exEntry 1, exEntry 2, exEntry 3] rfl⟩

/-! ## C5 -/

/-- C5: when the drain step raises `MessageWasNotDeliveredException` on the
head entry, `_process_data` catches it (nothing propagates out of the
handler), the undelivered entry stays at the head with the queue length
unchanged, and the upstream message is still acknowledged; the next drain
call therefore attempts the same entry first. -/
theorem notdelivered_caught_queue_intact
    (attempt : RelayEntry → PublishOutcome) (maxsize : ℕ)
    (q : List RelayEntry) (d : JsonV) (e : RelayEntry)
    (rest : List RelayEntry)
    (hq : queueAfterClassification maxsize q d = e :: rest)
    (hnd : attempt e = .notDelivered) :
    (processData attempt maxsize q d).queue = e :: rest
    ∧ (processData attempt maxsize q d).raised = none
    ∧ (processData attempt maxsize q d).acked = true := by
  simp [processData, hq, sendData, hnd]

/-- C5 witness: a broker that never confirms leaves the single classified
entry at the head and raises nothing. -/
theorem notdelivered_caught_queue_intact_witness :
    (processData (fun _ => .notDelivered) 3 [] exFailure).queue = [exFailAlert].map mkEntry
    ∧ (processData (fun _ => .notDelivered) 3 [] exFailure).raised = none :=
  have h := notdelivered_caught_queue_intact (fun _ => .notDelivered) 3 []
    exFailure (mkEntry exFailAlert) [] rfl rfl
  ⟨h.1, h.2.1⟩

/-! ## C6 -/

/-- C6: a decoded object with neither a `result` nor an `error` key fails
with `ReceivedUnexpectedDataException`, the error is recovered inside the
handler, the upstream message is still acknowledged, and zero entries are
placed on the publishing queue. -/
theorem unrecognized_payload_recovered
    (fields : List (String × JsonV)) (attempt : RelayEntry → PublishOutcome)
    (maxsize : ℕ) (q : List RelayEntry)
    (h1 : hasKeyF fields "result" = false)
    (h2 : hasKeyF fields "error" = false) :
    classify (.obj fields) = .error .unexpectedData
    ∧ queueAfterClassification maxsize q (.obj fields) = q
    ∧ (processData attempt maxsize q (.obj fields)).acked = true := by
  have hc : classify (.obj fields) = .error .unexpectedData := by
    simp [classify, h1, h2]
  exact ⟨hc, by simp [queueAfterClassification, hc], rfl⟩

/-- C6 witness: a payload with only an unrelated key. -/
theorem unrecognized_payload_recovered_witness :
    classify (.obj [("foo", .int 1)]) = .error .unexpectedData
    ∧ queueAfterClassification 2 [] (.obj [("foo", .int 1)]) = []
    ∧ (processData (fun _ => .delivered) 2 [] (.obj [("foo", .int 1)])).acked
        = true :=
  unrecognized_payload_recovered [("foo", .int 1)] (fun _ => .delivered) 2 []
    rfl rfl

/-! ## C7 -/

/-- C7: a decoded object with an `error` key and no `result` key, whose
`meta_data` carries the required fields, classifies to exactly one
`CannotAccessGitHubPageAlert` built from the failure metadata. -/
theorem failure_payload_one_event
    (fields : List (String × JsonV)) (err md n t p r : JsonV)
    (h1 : hasKeyF fields "result" = false)
    (h2 : hasKeyF fields "error" = true)
    (hget : (JsonV.obj fields).getE "error" = .ok err)
    (hmd : err.getE "meta_data" = .ok md)
    (hn : md.getE "repo_name" = .ok n)
    (ht : md.getE "time" = .ok t)
    (hp : md.getE "repo_parent_id" = .ok p)
    (hr : md.getE "repo_id" = .ok r) :
    classify (.obj fields) = .ok [cannotAccessGitHubPageAlert n t p r] := by
  simp [classify, h1, h2, classifyFailure, hget, hmd, hn, ht, hp, hr, ok_bind,
    pure_eq_ok]

/-- C7 witness: the concrete failure payload yields its single alert. -/
theorem failure_payload_one_event_witness :
    classify exFailure = .ok [exFailAlert] :=
  failure_payload_one_event exFailureFields _ _ _ _ _ _ rfl rfl rfl rfl rfl
    rfl rfl rfl

/-! ## C8 -/

/-- C8: the consumption loop's `except` dispatch: a channel error re-enters
the loop immediately (one more round, nothing logged here), a connection
error exits the loop propagating itself, `MessageWasNotDeliveredException`
is logged and the loop continues, and any other error is logged and
propagates as fatal. -/
theorem consumption_loop_dispatch :
    (∀ rest, classifierLoop (.channelError :: rest)
        = ((classifierLoop rest).1 + 1, (classifierLoop rest).2)
      ∧ (consumeDispatch .channelError).logged = false)
    ∧ (∀ rest, classifierLoop (.connectionError :: rest)
        = (1, some .connectionError))
    ∧ (∀ rest, classifierLoop (.notDelivered :: rest)
        = ((classifierLoop rest).1 + 1, (classifierLoop rest).2)
      ∧ (consumeDispatch .notDelivered).logged = true)
    ∧ (∀ rest, classifierLoop (.otherError :: rest) = (1, some .otherError)
      ∧ (consumeDispatch .otherError).logged = true) := by
  refine ⟨fun rest => ⟨?_, rfl⟩, fun rest => ?_, fun rest => ⟨?_, rfl⟩,
    fun rest => ⟨?_, rfl⟩⟩ <;> simp [classifierLoop, consumeDispatch]

/-- C8 witness: instantiation at singleton outcome streams. -/
theorem consumption_loop_dispatch_witness :
    classifierLoop [.channelError] = (1, none)
    ∧ classifierLoop [.connectionError] = (1, some .connectionError)
    ∧ classifierLoop [.notDelivered] = (1, none)
    ∧ classifierLoop [.otherError] = (1, some .otherError) :=
  ⟨(consumption_loop_dispatch.1 []).1.trans rfl,
   consumption_loop_dispatch.2.1 [],
   (consumption_loop_dispatch.2.2.1 []).1.trans rfl,
   (consumption_loop_dispatch.2.2.2 []).1⟩

/-! ## C9 -/

/-- C9: a decoded object carrying both a `result` and an `error` key is
classified by the `result` branch alone: the outcome is exactly that of
`classifyResult`, and any list of alerts it yields contains only
new-release events — never a `CannotAccessGitHubPageAlert` built from the
`error` content. -/
theorem result_key_takes_priority
    (fields : List (String × JsonV))
    (h1 : hasKeyF fields "result" = true)
    (_h2 : hasKeyF fields "error" = true) :
    classify (.obj fields) = classifyResult (.obj fields)
    ∧ ∀ l, classify (.obj fields) = .ok l →
        ∀ a ∈ l, a.kind = .newGitHubRelease := by
  have hc : classify (.obj fields) = classifyResult (.obj fields) := by
    simp [classify, h1]
  refine ⟨hc, ?_⟩
  intro l hl
  rw [hc] at hl
  exact classifyResult_kinds hl

/-- The fields of a payload carrying both a `result` member (with a null
baseline) and an `error` member. -/
def exBothFields : List (String × JsonV) :=
  ("result", JsonV.obj [("meta_data", exMeta),
    ("data", .obj [
      ("no_of_releases", .obj [("current", .int 2), ("previous", .null)]),
      ("releases", .obj [])])]) :: exFailureFields

/-- C9 witness: a payload with both keys takes the `result` branch (here a
null baseline, so zero events, and in particular no unreachable-page alert
from the `error` member). -/
theorem result_key_takes_priority_witness :
    classify (.obj exBothFields) = classifyResult (.obj exBothFields)
    ∧ classify (.obj exBothFields) = .ok [] :=
  ⟨(result_key_takes_priority exBothFields rfl rfl).1, rfl⟩

/-! ## C10 -/

/-- C10 counterexample: with queue capacity 7 the configured prefetch count
is `round(7 / 5) = 1`, which is not one-fifth of the capacity (`7/5`). -/
theorem prefetch_not_exact_fifth :
    (prefetchCount 7 : ℚ) ≠ (7 : ℚ) / 5 := by
  norm_num [prefetchCount]

/-- C10 (amended): the prefetch count is `round(capacity / 5)` — within
`1/2` of one-fifth of the publishing queue's capacity, and exactly equal to
`capacity / 5` whenever the capacity is a multiple of 5. -/
theorem prefetch_rounds_fifth (m : ℕ) :
    |(prefetchCount m : ℚ) - (m : ℚ) / 5| ≤ 1 / 2
    ∧ (5 ∣ m → (prefetchCount m : ℚ) = (m : ℚ) / 5) := by
  obtain ⟨q, r, hr, rfl⟩ : ∃ q r, r < 5 ∧ m = 5 * q + r :=
    ⟨m / 5, m % 5, Nat.mod_lt _ (by norm_num), by omega⟩
  have hdiv : (5 * q + r) / 5 = q := by omega
  have hmod : (5 * q + r) % 5 = r := by omega
  constructor
  · have hp : ((prefetchCount (5 * q + r) : ℕ) : ℚ)
        = (q : ℚ) + (if r ≤ 2 then 0 else 1) := by
      simp only [prefetchCount, hdiv, hmod]
      split <;> push_cast <;> norm_num
    rw [hp, abs_le]
    have hm : ((5 * q + r : ℕ) : ℚ) = 5 * (q : ℚ) + (r : ℚ) := by
      push_cast
      ring
    rw [hm]
    have hr4n : r ≤ 4 := by omega
    have hr4 : (r : ℚ) ≤ 4 := by exact_mod_cast hr4n
    have hr0 : (0 : ℚ) ≤ (r : ℚ) := by positivity
    by_cases hc : r ≤ 2
    · rw [if_pos hc]
      have hc2 : (r : ℚ) ≤ 2 := by exact_mod_cast hc
      constructor <;> linarith
    · rw [if_neg hc]
      have hc3n : 3 ≤ r := by omega
      have hc3 : (3 : ℚ) ≤ (r : ℚ) := by exact_mod_cast hc3n
      constructor <;> linarith
  · intro h5
    have hr0 : r = 0 := by omega
    subst hr0
    have hp : prefetchCount (5 * q + 0) = q := by
      simp only [prefetchCount, hdiv, hmod]
      norm_num
    rw [hp]
    push_cast
    field_simp

/-- C10 witness: at capacity 10 the prefetch count is exactly one fifth. -/
theorem prefetch_rounds_fifth_witness :
    (prefetchCount 10 : ℚ) = (10 : ℚ) / 5 :=
  (prefetch_rounds_fifth 10).2 (by norm_num)
